import Mathlib

/-!
Shallow embedding of the test-orchestration core of the IDNML testing tool
(`src/core/base_test.py`, `src/core/framework_manager.py`,
`src/core/readiness_waiter.py`, `src/core/cmp_handler.py`,
`src/config/site_test_plans.py`).

Python exceptions are modelled explicitly: a fallible phase yields a
`PhaseResult` / `Except String`, where the `String` is the exception text.
Awaited page operations that the source does not guard with `try` are the
raise points of the model; operations the source wraps in `try/except`
are total in the model, mirroring the code.
-/

namespace IDNML

/-- `TestState` enum from `core/base_test.py`. -/
inductive TestState where
  | PENDING
  | RUNNING
  | PASSED
  | FAILED
  | SKIPPED
  | ERROR
  deriving DecidableEq, Repr

/-- The string `value` of each `TestState` member. -/
def TestState.value : TestState → String
  | .PENDING => "pending"
  | .RUNNING => "running"
  | .PASSED => "passed"
  | .FAILED => "failed"
  | .SKIPPED => "skipped"
  | .ERROR => "error"

/-- A state is terminal when it is one of PASSED/FAILED/SKIPPED/ERROR. -/
def TestState.isTerminal : TestState → Bool
  | .PASSED => true
  | .FAILED => true
  | .SKIPPED => true
  | .ERROR => true
  | _ => false

/-- `TestResult` from `core/base_test.py`.  `data`/`metadata` dicts are
modelled as association lists (Python dicts preserve insertion order);
`execution_time` keeps the units abstract as a `Nat`. -/
structure TestResult where
  test_name : String
  state : TestState := .PENDING
  url : String := ""
  data : List (String × String) := []
  errors : List String := []
  warnings : List String := []
  execution_time : Nat := 0
  metadata : List (String × String) := []
  deriving DecidableEq, Repr

/-- Result of one Python call that may raise: either a value or an
exception carrying `str(e)`. -/
inductive PhaseResult (α : Type) where
  | ok (a : α)
  | raise (msg : String)
  deriving DecidableEq, Repr

/-- Behaviour of one check instance's four phases on a given page/URL:
what `self.setup`, `self.execute`, `self.validate`, `self.cleanup` return
(or raise) when awaited by `BaseTest.run`. -/
structure CheckBehavior where
  setup : PhaseResult Bool
  execute : PhaseResult TestResult
  validate : TestResult → PhaseResult TestResult
  cleanup : TestResult → PhaseResult Unit

/-- Observable trace of one `BaseTest.run` invocation: the returned
`TestResult` plus which phases were actually awaited. -/
structure RunTrace where
  result : TestResult
  executeCalled : Bool
  validateCalled : Bool
  cleanupCalled : Bool
  deriving DecidableEq, Repr

namespace BaseTest

/-- The `except Exception as e` body of `BaseTest.run` applied to whatever
`result` currently names, followed by the `finally` body. -/
def exceptBlock (r : TestResult) (m : String) (elapsed : Nat) : TestResult :=
  { r with
      state := .ERROR,
      errors := r.errors ++ ["Test execution error: " ++ m],
      execution_time := elapsed }

/-- The `finally` body alone: record elapsed time on the result. -/
def finallyBlock (r : TestResult) (elapsed : Nat) : TestResult :=
  { r with execution_time := elapsed }

/-- `BaseTest.run` from `core/base_test.py`: builds a fresh `TestResult`,
moves it to RUNNING, then setup → (SKIPPED early return on false) →
execute → validate → cleanup; any exception from a phase is caught by the
single `except` block which forces the **current** `result` binding to
ERROR and appends `"Test execution error: " ++ msg`; the `finally` block
records the elapsed time (`elapsed` abstracts the event-loop clock delta). -/
def run (b : CheckBehavior) (name url : String) (elapsed : Nat) : RunTrace :=
  let result0 : TestResult := { test_name := name, url := url, state := .RUNNING }
  match b.setup with
  | .raise m =>
      { result := exceptBlock result0 m elapsed,
        executeCalled := false, validateCalled := false, cleanupCalled := false }
  | .ok false =>
      { result := finallyBlock { result0 with state := .SKIPPED } elapsed,
        executeCalled := false, validateCalled := false, cleanupCalled := false }
  | .ok true =>
      match b.execute with
      | .raise m =>
          { result := exceptBlock result0 m elapsed,
            executeCalled := true, validateCalled := false, cleanupCalled := false }
      | .ok r =>
          match b.validate r with
          | .raise m =>
              { result := exceptBlock r m elapsed,
                executeCalled := true, validateCalled := true, cleanupCalled := false }
          | .ok r' =>
              match b.cleanup r' with
              | .raise m =>
                  { result := exceptBlock r' m elapsed,
                    executeCalled := true, validateCalled := true, cleanupCalled := true }
              | .ok _ =>
                  { result := finallyBlock r' elapsed,
                    executeCalled := true, validateCalled := true, cleanupCalled := true }

end BaseTest

namespace CMPHandler

/-- `CMPHandler.handle_consent` from `core/cmp_handler.py`, as a state
transition on the `cmp_handled` flag.  `clicked` abstracts the value
`_dismiss_any_cmp` would return if the selector search ran on this call
(`_dismiss_any_cmp` is total: its selector attempts are wrapped in
`try/except`).  Returns the new flag together with a Bool recording
whether the selector search was performed at all. -/
def handle_consent (handled : Bool) (clicked : Bool) : Bool × Bool :=
  if handled then (handled, false)
  else ((if clicked then true else handled), true)

/-- A sequence of `handle_consent` calls within one session, threading the
`cmp_handled` flag; returns the final flag and, per call, whether that
call performed a selector search. -/
def callSeq (handled : Bool) : List Bool → Bool × List Bool
  | [] => (handled, [])
  | c :: cs =>
      let step := handle_consent handled c
      let rest := callSeq step.1 cs
      (rest.1, step.2 :: rest.2)

end CMPHandler

namespace ReadinessWaiter

/-- The object computed by the in-page script of
`ReadinessWaiter.wait_for_prebid_and_gpt`; a poll whose `page.evaluate`
raises is modelled as `none` (the `except: pass` branch). -/
structure ReadyStatus where
  pbjsReady : Bool
  gptReady : Bool
  adUnitsReady : Bool
  bidderCount : Nat
  auctionStarted : Bool
  deriving DecidableEq, Repr

/-- The conjunction tested by the waiter before returning `True`. -/
def allReady : Option ReadyStatus → Bool
  | some s => s.pbjsReady && s.gptReady && s.adUnitsReady && s.auctionStarted
  | none => false

/-- The `while elapsed < self.timeout` loop of `wait_for_prebid_and_gpt`:
poll `k` runs at time `elapsed = k * interval`; on success return true,
otherwise sleep `interval` and continue; after the deadline return false.
Time is in abstract fixed ticks; `hi` records that the poll interval is
positive (with a zero interval the source loop would never terminate). -/
def waitAux (polls : Nat → Option ReadyStatus) (timeout interval : Nat)
    (hi : 0 < interval) (k elapsed : Nat) : Bool :=
  if _h : elapsed < timeout then
    if allReady (polls k) then true
    else waitAux polls timeout interval hi (k + 1) (elapsed + interval)
  else false
termination_by timeout - elapsed
decreasing_by omega

/-- `ReadinessWaiter.wait_for_prebid_and_gpt`, started at time 0. -/
def wait_for_prebid_and_gpt (polls : Nat → Option ReadyStatus)
    (timeout interval : Nat) (hi : 0 < interval) : Bool :=
  waitAux polls timeout interval hi 0 0

end ReadinessWaiter

/-! Python string helpers used by `_detect_page_type`
(`str(val).strip().lower()`), modelled at the ASCII level. -/

/-- Characters removed by Python `str.strip()` (ASCII whitespace). -/
def pyIsSpace (c : Char) : Bool :=
  c == ' ' || c == '\t' || c == '\n' || c == '\r' || c == Char.ofNat 11 || c == Char.ofNat 12

/-- Python `str.strip()`: drop leading and trailing whitespace. -/
def pyStrip (s : String) : String :=
  ⟨((s.data.dropWhile pyIsSpace).reverse.dropWhile pyIsSpace).reverse⟩

/-- Python `str.lower()` on one character (ASCII case mapping). -/
def pyLowerChar (c : Char) : Char :=
  if c.isUpper then Char.ofNat (c.toNat + 32) else c

/-- Python `str.lower()` (ASCII case mapping). -/
def pyLower (s : String) : String :=
  ⟨s.data.map pyLowerChar⟩

namespace TestFramework

/-- The polling loop of `TestFramework._detect_page_type`: `polls k` is
the value the in-page targeting read returns on iteration `k` (`none`
models the script returning `null`); a truthy (non-empty) value is
normalised with `.strip().lower()` and returned, otherwise the loop
sleeps and retries; once the `fuel` iterations allowed by the timeout
(`⌈timeout / 0.25⌉`, default 12) are exhausted it returns "unknown". -/
def detectPageTypeAux (polls : Nat → Option String) (k : Nat) : Nat → String
  | 0 => "unknown"
  | fuel + 1 =>
      match polls k with
      | some v => if v ≠ "" then pyLower (pyStrip v) else detectPageTypeAux polls (k + 1) fuel
      | none => detectPageTypeAux polls (k + 1) fuel

/-- `TestFramework._detect_page_type`, started at iteration 0. -/
def detect_page_type (polls : Nat → Option String) (numPolls : Nat) : String :=
  detectPageTypeAux polls 0 numPolls

end TestFramework

/-- One entry of `SITE_TEST_PLANS` (`config/site_test_plans.py`): the
"exclude" key may be absent (`none`), and "exclude_by_page_type" maps a
page type to a list of check names. -/
structure SitePlan where
  exclude : Option (List String)
  exclude_by_page_type : List (String × List String)

/-- `SITE_TEST_PLANS` from `config/site_test_plans.py`, verbatim. -/
def SITE_TEST_PLANS : List (String × SitePlan) :=
  [ ("independent",
     { exclude := some
         [ "UntestedKeysTest", "TestgroupTest", "AnonymisedKeyTest",
           "CmpActiveTest", "LongreadTest", "ReferrerTest",
           "AutorefreshTest", "CommercialTest", "LiveblogTest" ],
       exclude_by_page_type :=
         [ ("image", []), ("index", []), ("video", []), ("gallery", []) ] }),
    ("standard",
     { exclude := some [],
       exclude_by_page_type :=
         [ ("image",
            [ "AdUnitConfigurationTest", "AuctionActivityTest",
              "BidderPresenceTest", "ConsentIntegrationTest",
              "IdentityModulesTest", "PrebidEnvironmentTest",
              "PrebidTimeoutConfigTest", "PriceFloorsTest" ]) ] }) ]

/-- Python `dict.get(key, [])` on an `exclude_by_page_type` mapping. -/
def dictGetD (m : List (String × List String)) (k : String) : List String :=
  (m.lookup k).getD []

/-- Following the spec's wording (§3 SitePlan invariant): the effective
exclusions for a (site, page-type) pair are the union of the plan's
global exclude set and its page-type-specific set; absence of a plan
entry means "run everything" (no exclusions).  This definition is the
spec side of the refinement comparison; `TestFramework.resolveRunClasses`
is the code side. -/
def specEffectiveExclusions (site pageType : String) : List String :=
  match SITE_TEST_PLANS.lookup site with
  | some p => p.exclude.getD [] ++ dictGetD p.exclude_by_page_type pageType
  | none => []

namespace TestFramework

/-- The site-plan filter of `TestFramework._run_tests_for_url` (lines
514–535): when a plan entry exists (present entries of `SITE_TEST_PLANS`
are non-empty dicts, hence truthy) and its "exclude" key is not `None`,
keep only classes whose name is outside
`set(exclude) ∪ set(exclude_by_page_type.get(page_type, []))`;
otherwise run every discovered class.  Classes are identified by
`getattr(cls, "name", cls.__name__)`. -/
def resolveRunClasses (plan : Option SitePlan) (pageType : String)
    (classes : List String) : List String :=
  match plan with
  | some p =>
      match p.exclude with
      | some excludedSite =>
          let excludedPt := dictGetD p.exclude_by_page_type pageType
          classes.filter (fun nm => !(excludedSite.contains nm || excludedPt.contains nm))
      | none => classes
  | none => classes

/-- Behaviour of one `test.run(page, url)` call as seen by the
orchestrator, keyed by class name (fresh instance per class). -/
abbrev RunBehavior := PhaseResult TestResult

/-- `dict.setdefault`: keep an existing key, else append the pair. -/
def setdefault (m : List (String × String)) (k v : String) : List (String × String) :=
  match m.lookup k with
  | some _ => m
  | none => m ++ [(k, v)]

/-- The orchestrator's post-run metadata enrichment:
`result.metadata.setdefault("page_type", …)` then `…("locale", …)`. -/
def attachMeta (r : TestResult) (pageType locale : String) : TestResult :=
  { r with metadata := setdefault (setdefault r.metadata "page_type" pageType) "locale" locale }

/-- The per-check log line `"  {name}: {state.value}"`. -/
def stateLogLine (nm : String) (st : TestState) : String :=
  "  " ++ nm ++ ": " ++ st.value

/-- The per-check exception log line `"  {name}: ERROR - {str(e)}"`. -/
def errorLogLine (nm msg : String) : String :=
  "  " ++ nm ++ ": ERROR - " ++ msg

/-- The check loop of `_run_tests_for_url` (lines 540–567): for each
allowed class, await `test.run`; on a normal return enrich the metadata,
append the result to `url_results` and log its state; on an exception
only log an ERROR line — no result is appended — and continue with the
next class. -/
def runChecks (pageType locale : String) (runs : String → RunBehavior) :
    List String → List TestResult × List String
  | [] => ([], [])
  | nm :: rest =>
      match runs nm with
      | .ok r =>
          let r' := attachMeta r pageType locale
          let next := runChecks pageType locale runs rest
          (r' :: next.1, stateLogLine nm r'.state :: next.2)
      | .raise m =>
          let next := runChecks pageType locale runs rest
          (next.1, errorLogLine nm m :: next.2)

/-- Environment of one page visit: `pre` is the exception text if one of
the unguarded awaits before the check loop raises (`page.goto`, the
slot-response `page.evaluate`, the page-type or locale `page.evaluate`);
`pageTypePolls` feeds `_detect_page_type`; `locale` is the value
`_detect_locale` returns; `runs` gives each check's `run` behaviour. -/
structure VisitEnv where
  pre : Option String
  pageTypePolls : Nat → Option String
  locale : String
  runs : String → RunBehavior

/-- `TestFramework._run_tests_for_url`: raise if an unguarded await
raises; otherwise detect the page type, look up the (lower-cased) active
site in `SITE_TEST_PLANS`, filter the class pool and run the check loop,
returning the visit's results and its buffered per-check log lines. -/
def runTestsForUrl (activeSite : String) (env : VisitEnv) (ptPolls : Nat)
    (classes : List String) : Except String (List TestResult × List String) :=
  match env.pre with
  | some e => .error e
  | none =>
      let page_type_norm := detect_page_type env.pageTypePolls ptPolls
      let site_id := pyLower activeSite
      let site_plan := SITE_TEST_PLANS.lookup site_id
      let run_classes := resolveRunClasses site_plan page_type_norm classes
      .ok (runChecks page_type_norm env.locale env.runs run_classes)

/-- The run configuration keys of `run_tests` that the model needs.
`warmup_pages := none` models a missing (or `None`) entry, which the
source maps to 0 via `int((… or 0))`; `page_type_polls` is the iteration
budget of the page-type poll loop (`⌈page_type_timeout / 0.25⌉`). -/
structure RunConfig where
  urls : List String
  parallel_tests : Bool := false
  warmup_pages : Option Int := none
  active_site : Option String := none
  page_type_polls : Nat := 12

/-- The warm-up count computation of `run_tests` (lines 630–631):
`max(0, min(int(config.get("warmup_pages", 0) or 0), total_urls))`. -/
def warmupClamp (w : Option Int) (total_urls : Nat) : Nat :=
  (max 0 (min (w.getD 0) (total_urls : Int))).toNat

/-- The warm-up loop over `selected_urls[:warmup_pages]`: each iteration
performs one `_warmup_url` navigation; `env i` is the exception its
unguarded `page.goto` raises, if any, which aborts the loop (and, having
no handler, the whole run).  Returns the navigations attempted and the
first exception. -/
def warmupRun (env : Nat → Option String) : List String → Nat → List String × Option String
  | [], _ => ([], none)
  | u :: rest, i =>
      match env i with
      | some e => ([u], some e)
      | none =>
          let next := warmupRun env rest (i + 1)
          (u :: next.1, next.2)

/-- The sequential (single-page) visit loop of `run_tests`: URLs are
visited in input order starting at index `i`, with `n` URLs remaining,
extending `results` with each visit's list; a visit's exception
propagates out of the loop. -/
def seqVisits (visit : Nat → Except String (List TestResult)) :
    Nat → Nat → Except String (List TestResult)
  | _, 0 => .ok []
  | i, n + 1 =>
      match visit i with
      | .error e => .error e
      | .ok rs =>
          match seqVisits visit (i + 1) n with
          | .error e => .error e
          | .ok rest => .ok (rs ++ rest)

/-- The bounded-parallel branch: `asyncio.gather` over one task per URL.
When no task raises, the per-URL result lists concatenate in task order;
when some task raises, `gather` re-raises (which exception wins depends
on completion timing — the model deterministically reports the
lowest-index one; the outcome kind and the skipped teardown do not
depend on that choice). -/
def gatherVisits (visit : Nat → Except String (List TestResult)) (n : Nat) :
    Except String (List TestResult) :=
  (List.range n).foldr
    (fun i acc =>
      match visit i, acc with
      | .error e, _ => .error e
      | .ok _, .error e => .error e
      | .ok rs, .ok rest => .ok (rs ++ rest))
    (.ok [])

/-- Observable effects of one `run_tests` call: its return value (or the
exception it lets escape), how many times `browser_manager.close()` ran,
which warm-up navigations were attempted, and whether a warm-up page was
opened. -/
structure RunReport where
  outcome : Except String (List TestResult)
  browserCloses : Nat
  warmupsPerformed : List String
  warmPageCreated : Bool
  deriving Repr

/-- `TestFramework.run_tests` (lines 590–710): empty class pool returns
before the browser starts; an empty URL list closes the browser and
returns `[]`; otherwise the warm-up loop runs over the clamped prefix,
then the sequential or parallel visit loop, and only when nothing raised
is the browser closed and the result list returned.  There is no
`try/finally`: an exception from a warm-up navigation or a visit
propagates to the caller and skips `browser_manager.close()`. -/
def run_tests (cfg : RunConfig) (pool : List String)
    (warmEnv : Nat → Option String) (venv : Nat → VisitEnv) : RunReport :=
  if pool.isEmpty then
    { outcome := .ok [], browserCloses := 0, warmupsPerformed := [], warmPageCreated := false }
  else
    let total_urls := cfg.urls.length
    if total_urls = 0 then
      { outcome := .ok [], browserCloses := 1, warmupsPerformed := [], warmPageCreated := false }
    else
      let warmup_pages := warmupClamp cfg.warmup_pages total_urls
      let warm := warmupRun warmEnv (cfg.urls.take warmup_pages) 0
      let warmCreated := decide (0 < warmup_pages)
      match warm.2 with
      | some e =>
          { outcome := .error e, browserCloses := 0,
            warmupsPerformed := warm.1, warmPageCreated := warmCreated }
      | none =>
          let siteId := cfg.active_site.getD "independent"
          let visit := fun i =>
            (runTestsForUrl siteId (venv i) cfg.page_type_polls pool).map Prod.fst
          let res :=
            if cfg.parallel_tests then gatherVisits visit total_urls
            else seqVisits visit 0 total_urls
          match res with
          | .ok rs =>
              { outcome := .ok rs, browserCloses := 1,
                warmupsPerformed := warm.1, warmPageCreated := warmCreated }
          | .error e =>
              { outcome := .error e, browserCloses := 0,
                warmupsPerformed := warm.1, warmPageCreated := warmCreated }

/-- The result list one visit contributes to the run's outcome (empty if
the visit raised — in that case `run_tests` re-raises anyway). -/
def visitResults (activeSite : String) (ptPolls : Nat) (pool : List String)
    (env : VisitEnv) : List TestResult :=
  match runTestsForUrl activeSite env ptPolls pool with
  | .ok out => out.1
  | .error _ => []

end TestFramework

/-! Concrete check behaviours and environments used to exercise the
model at specific inputs. -/

/-- A check whose setup reports its precondition unmet. -/
def bSetupFalse : CheckBehavior :=
  { setup := .ok false, execute := .raise "never reached",
    validate := fun r => .ok r, cleanup := fun _ => .ok () }

/-- A check whose execute phase raises after a successful setup. -/
def bExecRaises : CheckBehavior :=
  { setup := .ok true, execute := .raise "boom",
    validate := fun r => .ok r, cleanup := fun _ => .ok () }

/-- A check that completes every phase, validating to PASSED. -/
def bAllOk : CheckBehavior :=
  { setup := .ok true,
    execute := .ok { test_name := "T", state := .RUNNING },
    validate := fun r => .ok { r with state := .PASSED },
    cleanup := fun _ => .ok () }

/-- A check that validates to PASSED and then raises during cleanup. -/
def bCleanupRaises : CheckBehavior :=
  { setup := .ok true,
    execute := .ok { test_name := "T", state := .RUNNING },
    validate := fun r => .ok { r with state := .PASSED },
    cleanup := fun _ => .raise "cleanup boom" }

/-- Per-class run behaviours where check "A" raises and every other
check returns a PASSED result named after itself. -/
def cRuns : String → TestFramework.RunBehavior := fun nm =>
  if nm = "A" then .raise "boom" else .ok { test_name := nm, state := .PASSED }

/-- A visit whose navigation raises (an unguarded `page.goto` failure). -/
def cBadEnv : TestFramework.VisitEnv :=
  { pre := some "Navigation failed", pageTypePolls := fun _ => none,
    locale := "UK", runs := fun nm => .ok { test_name := nm, state := .PASSED } }

/-- A healthy visit: navigation succeeds, the page reports page type
"Article", the locale cookie reads UK, every check passes. -/
def cGoodEnv : TestFramework.VisitEnv :=
  { pre := none, pageTypePolls := fun _ => some "Article",
    locale := "UK", runs := fun nm => .ok { test_name := nm, state := .PASSED } }

/-- A one-URL sequential run configuration. -/
def cCfg : TestFramework.RunConfig := { urls := ["https://a.test/1"] }

/-- A two-URL run configuration asking for five warm-up pages. -/
def cWarmCfg : TestFramework.RunConfig :=
  { urls := ["https://a.test/1", "https://a.test/2"], warmup_pages := some 5 }

/-- A page whose targeting read returns " Article " on every poll. -/
def pollsArticle : Nat → Option String := fun _ => some " Article "

/-- A warm-up environment in which every navigation succeeds. -/
def warmNone : Nat → Option String := fun _ => none

/-- A run in which every page visit behaves like `cGoodEnv`. -/
def venvGood : Nat → TestFramework.VisitEnv := fun _ => cGoodEnv

/-!
# Theorems
-/

/-- C3 (amended): one invocation of `BaseTest.run` produces exactly one
`TestResult` (structurally: the function is total and returns a single
trace); the result's state is terminal provided `validate`, when it
completes, assigns a terminal state; and `cleanup` is invoked **iff**
setup returned true *and* execute and validate both completed without
raising — an exception in execute or validate skips cleanup even though
setup returned true, so the claim's plain "iff setup returned true"
fails. -/
theorem run_cleanup_iff (b : CheckBehavior) (name url : String) (elapsed : Nat)
    (hval : ∀ r r', b.validate r = .ok r' → r'.state.isTerminal = true) :
    ((BaseTest.run b name url elapsed).cleanupCalled = true ↔
      (b.setup = .ok true ∧ ∃ r r', b.execute = .ok r ∧ b.validate r = .ok r')) ∧
    (BaseTest.run b name url elapsed).result.state.isTerminal = true := by
  cases hs : b.setup with
  | raise m =>
      constructor
      · simp [BaseTest.run, hs]
      · simp [BaseTest.run, hs, BaseTest.exceptBlock, TestState.isTerminal]
  | ok bv =>
      cases bv with
      | false =>
          constructor
          · simp [BaseTest.run, hs]
          · simp [BaseTest.run, hs, BaseTest.finallyBlock, TestState.isTerminal]
      | true =>
          cases he : b.execute with
          | raise m =>
              constructor
              · simp [BaseTest.run, hs, he]
              · simp [BaseTest.run, hs, he, BaseTest.exceptBlock, TestState.isTerminal]
          | ok r =>
              cases hv : b.validate r with
              | raise m =>
                  constructor
                  · simp [BaseTest.run, hs, he, hv]
                  · simp [BaseTest.run, hs, he, hv, BaseTest.exceptBlock, TestState.isTerminal]
              | ok r' =>
                  have hterm := hval r r' hv
                  cases hc : b.cleanup r' with
                  | raise m =>
                      constructor
                      · simp [BaseTest.run, hs, he, hv, hc]
                      · simp [BaseTest.run, hs, he, hv, hc, BaseTest.exceptBlock,
                              TestState.isTerminal]
                  | ok u =>
                      constructor
                      · simp [BaseTest.run, hs, he, hv, hc]
                      · simpa [BaseTest.run, hs, he, hv, hc, BaseTest.finallyBlock]
                          using hterm

/-- C3 counterexample: `bExecRaises` has setup return true, yet its
cleanup phase is never invoked because execute raises — refuting
"cleanup is invoked if and only if setup returned true" as stated. -/
theorem run_cleanup_iff_counterexample :
    bExecRaises.setup = .ok true ∧
    (BaseTest.run bExecRaises "T" "https://a.test/1" 0).cleanupCalled = false :=
  ⟨rfl, rfl⟩

/-- C3 witness: the amended theorem applied to the all-ok behaviour. -/
theorem run_cleanup_iff_witness :
    (∀ r r', bAllOk.validate r = .ok r' → r'.state.isTerminal = true) ∧
    (((BaseTest.run bAllOk "T" "u" 0).cleanupCalled = true ↔
        (bAllOk.setup = .ok true ∧
          ∃ r r', bAllOk.execute = .ok r ∧ bAllOk.validate r = .ok r')) ∧
      (BaseTest.run bAllOk "T" "u" 0).result.state.isTerminal = true) :=
  ⟨fun r r' h => by cases h; rfl,
   run_cleanup_iff bAllOk "T" "u" 0 (fun r r' h => by cases h; rfl)⟩

/-- C5 (amended): an exception raised by cleanup after a completed
setup/execute/validate is caught inside `run` (nothing propagates to the
caller — a `RunTrace` is returned), but the shared `except` block forces
the outcome's state to ERROR, discarding the state `validate` assigned,
and appends "Test execution error: …" to its errors. -/
theorem run_cleanup_raise_eq (b : CheckBehavior) (name url : String)
    (elapsed : Nat) (r r' : TestResult) (m : String)
    (hs : b.setup = .ok true) (he : b.execute = .ok r)
    (hv : b.validate r = .ok r') (hc : b.cleanup r' = .raise m) :
    BaseTest.run b name url elapsed =
      { result := BaseTest.exceptBlock r' m elapsed,
        executeCalled := true, validateCalled := true, cleanupCalled := true } := by
  simp [BaseTest.run, hs, he, hv, hc]

/-- C5 counterexample: with `bCleanupRaises`, validate assigns PASSED but
the returned outcome's state is ERROR — refuting "it does not change the
outcome state that validate assigned". -/
theorem run_cleanup_raise_counterexample :
    bCleanupRaises.validate { test_name := "T", state := .RUNNING } =
      .ok { test_name := "T", state := .PASSED } ∧
    (BaseTest.run bCleanupRaises "T" "u" 0).result.state = TestState.ERROR ∧
    (BaseTest.run bCleanupRaises "T" "u" 0).result.state ≠ TestState.PASSED :=
  ⟨rfl, rfl, by decide⟩

/-- C5 witness: the amended theorem applied to `bCleanupRaises`. -/
theorem run_cleanup_raise_eq_witness :
    bCleanupRaises.setup = .ok true ∧
    bCleanupRaises.execute = .ok { test_name := "T", state := .RUNNING } ∧
    bCleanupRaises.validate { test_name := "T", state := .RUNNING } =
      .ok { test_name := "T", state := .PASSED } ∧
    bCleanupRaises.cleanup { test_name := "T", state := .PASSED } = .raise "cleanup boom" ∧
    BaseTest.run bCleanupRaises "T" "u" 7 =
      { result := BaseTest.exceptBlock { test_name := "T", state := .PASSED } "cleanup boom" 7,
        executeCalled := true, validateCalled := true, cleanupCalled := true } :=
  ⟨rfl, rfl, rfl, rfl,
   run_cleanup_raise_eq bCleanupRaises "T" "u" 7 _ _ _ rfl rfl rfl rfl⟩

/-- C6: when setup returns false, `run` returns an outcome whose state is
exactly SKIPPED with an empty error list, and neither execute nor
validate is invoked. -/
theorem run_setup_false_skipped (b : CheckBehavior) (name url : String)
    (elapsed : Nat) (h : b.setup = .ok false) :
    (BaseTest.run b name url elapsed).result.state = TestState.SKIPPED ∧
    (BaseTest.run b name url elapsed).result.errors = [] ∧
    (BaseTest.run b name url elapsed).executeCalled = false ∧
    (BaseTest.run b name url elapsed).validateCalled = false := by
  simp [BaseTest.run, h, BaseTest.finallyBlock]

/-- C6 witness: the theorem applied to `bSetupFalse`. -/
theorem run_setup_false_skipped_witness :
    bSetupFalse.setup = .ok false ∧
    ((BaseTest.run bSetupFalse "T" "https://a.test/1" 5).result.state = TestState.SKIPPED ∧
      (BaseTest.run bSetupFalse "T" "https://a.test/1" 5).result.errors = [] ∧
      (BaseTest.run bSetupFalse "T" "https://a.test/1" 5).executeCalled = false ∧
      (BaseTest.run bSetupFalse "T" "https://a.test/1" 5).validateCalled = false) :=
  ⟨rfl, run_setup_false_skipped bSetupFalse "T" "https://a.test/1" 5 rfl⟩

/-- C8: once the `cmp_handled` flag is set (a banner was successfully
dismissed — first conjunct: a successful dismissal sets it and did
search), every subsequent `handle_consent` call in the session performs
no selector search and leaves the flag set, for any sequence of
would-be dismissal results. -/
theorem handle_consent_idempotent (rs : List Bool) :
    CMPHandler.handle_consent false true = (true, true) ∧
    CMPHandler.callSeq true rs = (true, rs.map fun _ => false) := by
  refine ⟨rfl, ?_⟩
  induction rs with
  | nil => rfl
  | cons c cs ih => simp [CMPHandler.callSeq, CMPHandler.handle_consent, ih]

/-- The waiter's loop returns true within fuel `m ≥ timeout - elapsed`
iff some later poll, scheduled strictly before the deadline, sees all
sub-signals true. -/
theorem waitAux_true_iff (polls : Nat → Option ReadinessWaiter.ReadyStatus)
    (t i : Nat) (hi : 0 < i) :
    ∀ m k e, t - e ≤ m →
      (ReadinessWaiter.waitAux polls t i hi k e = true ↔
        ∃ d, e + d * i < t ∧ ReadinessWaiter.allReady (polls (k + d)) = true) := by
  intro m
  induction m with
  | zero =>
      intro k e hm
      have hne : ¬ e < t := by omega
      rw [ReadinessWaiter.waitAux]
      simp only [hne, dite_false]
      constructor
      · intro h; cases h
      · rintro ⟨d, hd, _⟩
        exact absurd hd (not_lt.mpr (le_trans (by omega) (Nat.le_add_right e (d * i))))
  | succ n ih =>
      intro k e hm
      rw [ReadinessWaiter.waitAux]
      by_cases h : e < t
      · simp only [h, dite_true]
        cases hr : ReadinessWaiter.allReady (polls k) with
        | true =>
            simp [hr]
            exact ⟨0, by simpa using h, by simpa using hr⟩
        | false =>
            simp only [hr, Bool.false_eq_true, if_false]
            rw [ih (k + 1) (e + i) (by omega)]
            constructor
            · rintro ⟨d, hd1, hd2⟩
              refine ⟨d + 1, ?_, ?_⟩
              · have hq : (d + 1) * i = d * i + i := Nat.succ_mul d i
                have : e + i + d * i < t := hd1
                linarith
              · have hk : k + 1 + d = k + (d + 1) := by omega
                rwa [hk] at hd2
            · rintro ⟨d, hd1, hd2⟩
              cases d with
              | zero =>
                  exfalso
                  have : ReadinessWaiter.allReady (polls k) = true := by simpa using hd2
                  rw [hr] at this
                  cases this
              | succ d' =>
                  refine ⟨d', ?_, ?_⟩
                  · have hq : (d' + 1) * i = d' * i + i := Nat.succ_mul d' i
                    have : e + (d' + 1) * i < t := hd1
                    linarith
                  · have hk : k + 1 + d' = k + (d' + 1) := by omega
                    rwa [hk]
      · simp only [h, dite_false]
        constructor
        · intro hf; cases hf
        · rintro ⟨d, hd, _⟩
          exact absurd hd (not_lt.mpr (le_trans (by omega) (Nat.le_add_right e (d * i))))

/-- C7: `wait_for_prebid_and_gpt` is total (modelled as a function — the
in-page evaluation throwing is a `none` poll, handled by the
`except: pass` branch) and returns true iff some poll scheduled strictly
within the timeout observes all four sub-signals (pbjs queue, GPT API,
at least one ad unit, an auction event) simultaneously true; otherwise,
once the deadline elapses, it returns false. -/
theorem wait_for_prebid_and_gpt_iff (polls : Nat → Option ReadinessWaiter.ReadyStatus)
    (timeout interval : Nat) (hi : 0 < interval) :
    ReadinessWaiter.wait_for_prebid_and_gpt polls timeout interval hi = true ↔
      ∃ j, j * interval < timeout ∧ ReadinessWaiter.allReady (polls j) = true := by
  rw [ReadinessWaiter.wait_for_prebid_and_gpt,
      waitAux_true_iff polls timeout interval hi timeout 0 0 (by omega)]
  simp

/-- C7 witness: with a one-tick interval and a four-tick timeout, a page
whose signals all come up at the third poll makes the waiter return
true. -/
theorem wait_for_prebid_and_gpt_iff_witness :
    (0 : Nat) < 1 ∧
    ReadinessWaiter.wait_for_prebid_and_gpt
      (fun j => if j = 2 then some ⟨true, true, true, 3, true⟩ else none)
      4 1 (by decide) = true :=
  ⟨by decide,
   (wait_for_prebid_and_gpt_iff
      (fun j => if j = 2 then some ⟨true, true, true, 3, true⟩ else none)
      4 1 (by decide)).mpr ⟨2, by decide, rfl⟩⟩

/-- Python's ASCII lower-case mapping never yields an upper-case
character. -/
theorem pyLowerChar_isUpper (c : Char) : (pyLowerChar c).isUpper = false := by
  unfold pyLowerChar
  by_cases h : c.isUpper
  · simp only [h, if_true]
    have hv : 65 ≤ c.val ∧ c.val ≤ 90 := by
      unfold Char.isUpper at h
      simpa [Bool.and_eq_true, decide_eq_true_eq] using h
    have hn90 : c.toNat ≤ (90 : UInt32).toNat := hv.2
    have hn65 : (65 : UInt32).toNat ≤ c.toNat := hv.1
    have h90 : (90 : UInt32).toNat = 90 := by decide
    have h65 : (65 : UInt32).toNat = 65 := by decide
    rw [h65] at hn65
    have hvalid : (c.toNat + 32).isValidChar := Or.inl (by omega)
    have hofn : Char.ofNat (c.toNat + 32) = Char.ofNatAux (c.toNat + 32) hvalid := by
      unfold Char.ofNat
      rw [dif_pos hvalid]
    rw [hofn]
    have htn : (Char.ofNatAux (c.toNat + 32) hvalid).toNat = c.toNat + 32 := rfl
    unfold Char.isUpper
    have hnot : ¬ ((Char.ofNatAux (c.toNat + 32) hvalid).val ≤ 90) := by
      intro hle
      have hle' : (Char.ofNatAux (c.toNat + 32) hvalid).toNat ≤ (90 : UInt32).toNat := hle
      rw [htn, h90] at hle'
      omega
    simp [hnot]
  · simp [h]

/-- Every character of a lower-cased string is non-upper-case. -/
theorem pyLower_data_isUpper (s : String) :
    ∀ c ∈ (pyLower s).data, c.isUpper = false := by
  intro c hc
  have hd : (pyLower s).data = s.data.map pyLowerChar := rfl
  rw [hd] at hc
  obtain ⟨a, _, rfl⟩ := List.mem_map.mp hc
  exact pyLowerChar_isUpper a

/-- Every character the page-type poll loop can return is
non-upper-case ("unknown" included). -/
theorem detectPageTypeAux_isUpper (polls : Nat → Option String) :
    ∀ fuel k, ∀ c ∈ (TestFramework.detectPageTypeAux polls k fuel).data,
      c.isUpper = false := by
  intro fuel
  induction fuel with
  | zero =>
      intro k c hc
      exact (by decide : ∀ c ∈ ("unknown" : String).data, c.isUpper = false) c hc
  | succ fuel ih =>
      intro k c hc
      cases hp : polls k with
      | none =>
          simp only [TestFramework.detectPageTypeAux, hp] at hc
          exact ih (k + 1) c hc
      | some v =>
          by_cases hv : v = ""
          · simp only [TestFramework.detectPageTypeAux, hp, hv, ne_eq,
              not_true_eq_false, if_false] at hc
            exact ih (k + 1) c hc
          · simp only [TestFramework.detectPageTypeAux, hp, ne_eq, hv,
              not_false_eq_true, if_true] at hc
            exact pyLower_data_isUpper (pyStrip v) c hc

/-- The page-type poll loop returns either "unknown" or the normalised
form of some polled targeting value. -/
theorem detectPageTypeAux_shape (polls : Nat → Option String) :
    ∀ fuel k,
      TestFramework.detectPageTypeAux polls k fuel = "unknown" ∨
      ∃ j v, polls j = some v ∧
        TestFramework.detectPageTypeAux polls k fuel = pyLower (pyStrip v) := by
  intro fuel
  induction fuel with
  | zero => intro k; exact Or.inl rfl
  | succ fuel ih =>
      intro k
      cases hp : polls k with
      | none =>
          rcases ih (k + 1) with h | ⟨j, v, hj, hv⟩
          · exact Or.inl (by simp only [TestFramework.detectPageTypeAux, hp]; exact h)
          · exact Or.inr ⟨j, v, hj, by simp only [TestFramework.detectPageTypeAux, hp]; exact hv⟩
      | some v =>
          by_cases hv : v = ""
          · rcases ih (k + 1) with h | ⟨j, w, hj, hw⟩
            · exact Or.inl (by
                simp only [TestFramework.detectPageTypeAux, hp, hv, ne_eq,
                  not_true_eq_false, if_false]
                exact h)
            · exact Or.inr ⟨j, w, hj, by
                simp only [TestFramework.detectPageTypeAux, hp, hv, ne_eq,
                  not_true_eq_false, if_false]
                exact hw⟩
          · exact Or.inr ⟨k, v, hp, by
              simp only [TestFramework.detectPageTypeAux, hp, ne_eq, hv,
                not_false_eq_true, if_true]⟩

/-- C9: the detected page type is always either the whitespace-trimmed,
lower-cased targeting value or the literal "unknown"; consequently a
`SITE_TEST_PLANS` `exclude_by_page_type` key containing an upper-case
character can never equal the detected value, and the `dict.get` lookup
on it (which `_run_tests_for_url` performs on this normalised form —
see `TestFramework.runTestsForUrl`) never matches. -/
theorem detect_page_type_normalized (polls : Nat → Option String) (n : Nat)
    (key : String) (hk : ∃ c ∈ key.data, c.isUpper = true) :
    (TestFramework.detect_page_type polls n = "unknown" ∨
      ∃ j v, polls j = some v ∧
        TestFramework.detect_page_type polls n = pyLower (pyStrip v)) ∧
    key ≠ TestFramework.detect_page_type polls n ∧
    ∀ excl, dictGetD [(key, excl)] (TestFramework.detect_page_type polls n) = [] := by
  have hshape := detectPageTypeAux_shape polls n 0
  have hupper := detectPageTypeAux_isUpper polls n 0
  have hne : key ≠ TestFramework.detect_page_type polls n := by
    intro heq
    obtain ⟨c, hc, hcu⟩ := hk
    have hmem : c ∈ (TestFramework.detect_page_type polls n).data := by
      rw [← heq]; exact hc
    have hfalse := hupper c hmem
    rw [hcu] at hfalse
    cases hfalse
  refine ⟨hshape, hne, ?_⟩
  intro excl
  have hbeq : (TestFramework.detect_page_type polls n == key) = false :=
    beq_eq_false_iff_ne.mpr (Ne.symm hne)
  simp [dictGetD, List.lookup, hbeq]

/-- C9 witness: key "Index" (capital I) against a page reporting
" Article " for three polls. -/
theorem detect_page_type_normalized_witness :
    (∃ c ∈ ("Index" : String).data, c.isUpper = true) ∧
    ((TestFramework.detect_page_type pollsArticle 3 = "unknown" ∨
        ∃ j v, pollsArticle j = some v ∧
          TestFramework.detect_page_type pollsArticle 3 = pyLower (pyStrip v)) ∧
      "Index" ≠ TestFramework.detect_page_type pollsArticle 3 ∧
      ∀ excl, dictGetD [("Index", excl)]
          (TestFramework.detect_page_type pollsArticle 3) = []) :=
  ⟨by decide,
   detect_page_type_normalized pollsArticle 3 "Index" (by decide)⟩

/-- Membership in a concatenation of `contains` checks. -/
theorem contains_append_eq (l₁ l₂ : List String) (a : String) :
    (l₁ ++ l₂).contains a = (l₁.contains a || l₂.contains a) := by
  induction l₁ with
  | nil => simp
  | cons b bs ih => simp [List.contains_cons, ih, Bool.or_assoc]

/-- Every plan entry present in `SITE_TEST_PLANS` carries an "exclude"
key (the code's `site_plan.get("exclude") is not None` test passes). -/
theorem sitePlans_exclude_isSome (site : String) (p : SitePlan)
    (h : SITE_TEST_PLANS.lookup site = some p) : ∃ l, p.exclude = some l := by
  unfold SITE_TEST_PLANS at h
  simp only [List.lookup] at h
  split at h
  · exact ⟨_, by cases h; rfl⟩
  · split at h
    · exact ⟨_, by cases h; rfl⟩
    · cases h

/-- Refinement of the site-plan filter: against the shipped
`SITE_TEST_PLANS`, the code's run-class resolution equals the spec's
"pool minus (global ∪ page-type-specific)" formula, for present and
absent plan entries alike. -/
theorem resolveRunClasses_eq_filter (site pageType : String) (pool : List String) :
    TestFramework.resolveRunClasses (SITE_TEST_PLANS.lookup site) pageType pool
      = pool.filter (fun nm => !((specEffectiveExclusions site pageType).contains nm)) := by
  cases hp : SITE_TEST_PLANS.lookup site with
  | none =>
      simp [TestFramework.resolveRunClasses, specEffectiveExclusions, hp]
  | some p =>
      obtain ⟨l, hl⟩ := sitePlans_exclude_isSome site p hp
      simp only [TestFramework.resolveRunClasses, specEffectiveExclusions, hp, hl,
        Option.getD_some]
      apply List.filter_congr
      intro a _
      simp [contains_append_eq]

/-- Every result the check loop emits comes from the `run` behaviour of
some class in the resolved list, with only metadata enriched. -/
theorem mem_runChecks (pt locale : String) (runs : String → TestFramework.RunBehavior) :
    ∀ (l : List String) (res : TestResult),
      res ∈ (TestFramework.runChecks pt locale runs l).1 →
      ∃ nm ∈ l, ∃ r, runs nm = .ok r ∧ res = TestFramework.attachMeta r pt locale := by
  intro l
  induction l with
  | nil => intro res h; simp [TestFramework.runChecks] at h
  | cons a as ih =>
      intro res h
      cases hr : runs a with
      | ok r =>
          simp only [TestFramework.runChecks, hr] at h
          rcases List.mem_cons.mp h with h1 | h2
          · exact ⟨a, List.mem_cons_self a as, r, hr, h1⟩
          · obtain ⟨nm, hnm, r', hr', hres⟩ := ih res h2
            exact ⟨nm, List.mem_cons_of_mem a hnm, r', hr', hres⟩
      | raise m =>
          simp only [TestFramework.runChecks, hr] at h
          obtain ⟨nm, hnm, r', hr', hres⟩ := ih res h
          exact ⟨nm, List.mem_cons_of_mem a hnm, r', hr', hres⟩

/-- C4: for every site and page type, the classes actually run equal the
selected pool minus the union of the plan's global and page-type
exclusion sets (everything runs when the site has no plan entry); and a
check excluded globally for the (lower-cased) active site never yields a
result in any visit's output, given that checks name their results after
their class. -/
theorem site_plan_exclusions (siteId pageType : String) (pool : List String)
    (env : TestFramework.VisitEnv) (ptPolls : Nat)
    (hname : ∀ nm r, env.runs nm = .ok r → r.test_name = nm) :
    (TestFramework.resolveRunClasses (SITE_TEST_PLANS.lookup siteId) pageType pool
       = pool.filter (fun nm => !((specEffectiveExclusions siteId pageType).contains nm))) ∧
    (∀ nm p out,
      SITE_TEST_PLANS.lookup (pyLower siteId) = some p →
      nm ∈ p.exclude.getD [] →
      TestFramework.runTestsForUrl siteId env ptPolls pool = .ok out →
      ∀ res ∈ out.1, res.test_name ≠ nm) := by
  refine ⟨resolveRunClasses_eq_filter siteId pageType pool, ?_⟩
  intro nm p out hplan hnm hout res hres heq
  cases hpre : env.pre with
  | some e => simp [TestFramework.runTestsForUrl, hpre] at hout
  | none =>
      obtain ⟨l, hl⟩ := sitePlans_exclude_isSome (pyLower siteId) p hplan
      simp only [TestFramework.runTestsForUrl, hpre] at hout
      cases hout
      obtain ⟨nm', hmem, r, hr, hres_eq⟩ :=
        mem_runChecks _ _ _ _ res hres
      have hn : res.test_name = nm' := by
        rw [hres_eq]
        exact hname nm' r hr
      simp only [TestFramework.resolveRunClasses, hplan, hl] at hmem
      have hpred := (List.mem_filter.mp hmem).2
      have hor : (l.contains nm' ||
          (dictGetD p.exclude_by_page_type
            (TestFramework.detect_page_type env.pageTypePolls ptPolls)).contains nm') = false := by
        simpa using hpred
      have hcont : l.contains nm' = false := (Bool.or_eq_false_iff.mp hor).1
      have hnm_l : nm ∈ l := by
        rw [hl] at hnm
        simpa using hnm
      have hne : nm' = nm := by
        rw [← hn]; exact heq
      rw [hne] at hcont
      have htrue : l.contains nm = true := List.elem_iff.mpr hnm_l
      rw [hcont] at htrue
      cases htrue

/-- C4 witness: site "independent", page type "index", a pool holding an
excluded and a non-excluded check, and a healthy visit. -/
theorem site_plan_exclusions_witness :
    (∀ nm r, cGoodEnv.runs nm = .ok r → r.test_name = nm) ∧
    ((TestFramework.resolveRunClasses (SITE_TEST_PLANS.lookup "independent") "index"
        ["UntestedKeysTest", "PageTypeTest"]
        = (["UntestedKeysTest", "PageTypeTest"].filter
            (fun nm => !((specEffectiveExclusions "independent" "index").contains nm)))) ∧
      (∀ nm p out,
        SITE_TEST_PLANS.lookup (pyLower "independent") = some p →
        nm ∈ p.exclude.getD [] →
        TestFramework.runTestsForUrl "independent" cGoodEnv 12
          ["UntestedKeysTest", "PageTypeTest"] = .ok out →
        ∀ res ∈ out.1, res.test_name ≠ nm)) :=
  ⟨fun nm r h => by cases h; rfl,
   site_plan_exclusions "independent" "index" ["UntestedKeysTest", "PageTypeTest"]
     cGoodEnv 12 (fun nm r h => by cases h; rfl)⟩

/-- C2 (amended): when a check's `run` call raises, the orchestrator's
`except` block catches it, appends only the log line
"  name: ERROR - msg" to the visit's buffered log — no outcome is
appended to the visit's result list — and the remaining checks of the
visit still run (and, the loop being total, subsequent URLs too). -/
theorem runChecks_raise_split (pt locale : String)
    (runs : String → TestFramework.RunBehavior)
    (l1 l2 : List String) (nm msg : String) (h : runs nm = .raise msg) :
    TestFramework.runChecks pt locale runs (l1 ++ nm :: l2)
      = ((TestFramework.runChecks pt locale runs l1).1
           ++ (TestFramework.runChecks pt locale runs l2).1,
         (TestFramework.runChecks pt locale runs l1).2
           ++ TestFramework.errorLogLine nm msg
             :: (TestFramework.runChecks pt locale runs l2).2) := by
  induction l1 with
  | nil => simp [TestFramework.runChecks, h]
  | cons a as ih =>
      cases hr : runs a with
      | ok r => simp [TestFramework.runChecks, hr, ih]
      | raise m => simp [TestFramework.runChecks, hr, ih]

/-- C2 counterexample: check "A" raises "boom"; the visit's result list
holds no ERROR outcome and nothing named "A" — only check "B"'s result —
while the log buffer holds the ERROR line, refuting "records an ERROR
outcome … in that visit's result list". -/
theorem runChecks_raise_counterexample :
    (∀ res ∈ (TestFramework.runChecks "article" "UK" cRuns ["A", "B"]).1,
        res.state ≠ TestState.ERROR ∧ res.test_name ≠ "A") ∧
    (TestFramework.runChecks "article" "UK" cRuns ["A", "B"]).1.length = 1 ∧
    (TestFramework.runChecks "article" "UK" cRuns ["A", "B"]).2
      = ["  A: ERROR - boom", "  B: passed"] := by
  decide

/-- C2 witness: the amended theorem applied around check "A". -/
theorem runChecks_raise_split_witness :
    cRuns "A" = .raise "boom" ∧
    TestFramework.runChecks "article" "UK" cRuns (["B"] ++ "A" :: ["C"])
      = ((TestFramework.runChecks "article" "UK" cRuns ["B"]).1
           ++ (TestFramework.runChecks "article" "UK" cRuns ["C"]).1,
         (TestFramework.runChecks "article" "UK" cRuns ["B"]).2
           ++ TestFramework.errorLogLine "A" "boom"
             :: (TestFramework.runChecks "article" "UK" cRuns ["C"]).2) :=
  ⟨rfl, runChecks_raise_split "article" "UK" cRuns ["B"] ["C"] "A" "boom" rfl⟩

/-- When no warm-up navigation raises, the warm-up loop visits its whole
input list and reports no exception. -/
theorem warmupRun_all_none (env : Nat → Option String) (henv : ∀ i, env i = none) :
    ∀ (l : List String) (k : Nat), TestFramework.warmupRun env l k = (l, none) := by
  intro l
  induction l with
  | nil => intro k; rfl
  | cons u rest ih => intro k; simp [TestFramework.warmupRun, henv k, ih (k + 1)]

/-- The clamped warm-up count never exceeds the URL count. -/
theorem warmupClamp_le (w : Option Int) (n : Nat) :
    TestFramework.warmupClamp w n ≤ n := by
  unfold TestFramework.warmupClamp
  omega

/-- The warm-up bookkeeping of `run_tests`: with a non-empty pool and no
warm-up navigation failure, the navigations performed are exactly the
clamped URL prefix, and a warm-up page is opened iff the clamp is
positive — independently of how the visits themselves fare. -/
theorem run_tests_warm_fields (cfg : TestFramework.RunConfig) (pool : List String)
    (warmEnv : Nat → Option String) (venv : Nat → TestFramework.VisitEnv)
    (hpool : pool ≠ []) (hw : ∀ i, warmEnv i = none) :
    (TestFramework.run_tests cfg pool warmEnv venv).warmupsPerformed
      = cfg.urls.take (TestFramework.warmupClamp cfg.warmup_pages cfg.urls.length) ∧
    (TestFramework.run_tests cfg pool warmEnv venv).warmPageCreated
      = decide (0 < TestFramework.warmupClamp cfg.warmup_pages cfg.urls.length) := by
  have hpe : pool.isEmpty = false := by simpa [List.isEmpty_iff] using hpool
  by_cases hn : cfg.urls.length = 0
  · have hurls : cfg.urls = [] := List.length_eq_zero.mp hn
    have hcl : TestFramework.warmupClamp cfg.warmup_pages 0 = 0 := by
      unfold TestFramework.warmupClamp; omega
    simp [TestFramework.run_tests, hpe, hn, hurls, hcl]
  · have hwarm := warmupRun_all_none warmEnv hw
      (cfg.urls.take (TestFramework.warmupClamp cfg.warmup_pages cfg.urls.length)) 0
    simp only [TestFramework.run_tests, hpe, Bool.false_eq_true, if_false, hn, hwarm]
    split <;> simp

/-- C10: the number of warm-up navigations performed equals
`warmup_pages` clamped to `[0, #URLs]` — the performed list is exactly
the clamped URL prefix; non-positive or missing `warmup_pages` performs
none and opens no warm-up page; `warmup_pages` at least the URL count
warms every URL exactly once (the whole list, in order).  Holds for a
non-empty check pool when no warm-up navigation raises. -/
theorem warmup_clamped (cfg : TestFramework.RunConfig) (pool : List String)
    (warmEnv : Nat → Option String) (venv : Nat → TestFramework.VisitEnv)
    (hpool : pool ≠ []) (hw : ∀ i, warmEnv i = none) :
    (TestFramework.run_tests cfg pool warmEnv venv).warmupsPerformed
      = cfg.urls.take (TestFramework.warmupClamp cfg.warmup_pages cfg.urls.length) ∧
    (TestFramework.run_tests cfg pool warmEnv venv).warmupsPerformed.length
      = TestFramework.warmupClamp cfg.warmup_pages cfg.urls.length ∧
    (cfg.warmup_pages.getD 0 ≤ 0 →
      (TestFramework.run_tests cfg pool warmEnv venv).warmupsPerformed = [] ∧
      (TestFramework.run_tests cfg pool warmEnv venv).warmPageCreated = false) ∧
    ((cfg.urls.length : Int) ≤ cfg.warmup_pages.getD 0 →
      (TestFramework.run_tests cfg pool warmEnv venv).warmupsPerformed = cfg.urls) := by
  obtain ⟨h1, h2⟩ := run_tests_warm_fields cfg pool warmEnv venv hpool hw
  refine ⟨h1, ?_, ?_, ?_⟩
  · rw [h1, List.length_take]
    have := warmupClamp_le cfg.warmup_pages cfg.urls.length
    omega
  · intro hle
    have hcl : TestFramework.warmupClamp cfg.warmup_pages cfg.urls.length = 0 := by
      unfold TestFramework.warmupClamp; omega
    refine ⟨?_, ?_⟩
    · rw [h1, hcl]; simp
    · rw [h2, hcl]; simp
  · intro hge
    have hcl : TestFramework.warmupClamp cfg.warmup_pages cfg.urls.length
        = cfg.urls.length := by
      unfold TestFramework.warmupClamp; omega
    rw [h1, hcl, List.take_length]

/-- C10 witness: two URLs, `warmup_pages = 5`, healthy environment. -/
theorem warmup_clamped_witness :
    (["SomeTest"] : List String) ≠ [] ∧ (∀ i, warmNone i = none) ∧
    ((TestFramework.run_tests cWarmCfg ["SomeTest"] warmNone venvGood).warmupsPerformed
        = cWarmCfg.urls.take
            (TestFramework.warmupClamp cWarmCfg.warmup_pages cWarmCfg.urls.length) ∧
      (TestFramework.run_tests cWarmCfg ["SomeTest"] warmNone venvGood).warmupsPerformed.length
        = TestFramework.warmupClamp cWarmCfg.warmup_pages cWarmCfg.urls.length ∧
      (cWarmCfg.warmup_pages.getD 0 ≤ 0 →
        (TestFramework.run_tests cWarmCfg ["SomeTest"] warmNone venvGood).warmupsPerformed = [] ∧
        (TestFramework.run_tests cWarmCfg ["SomeTest"] warmNone venvGood).warmPageCreated = false) ∧
      ((cWarmCfg.urls.length : Int) ≤ cWarmCfg.warmup_pages.getD 0 →
        (TestFramework.run_tests cWarmCfg ["SomeTest"] warmNone venvGood).warmupsPerformed
          = cWarmCfg.urls)) :=
  ⟨by simp, fun _ => rfl,
   warmup_clamped cWarmCfg ["SomeTest"] warmNone venvGood (by simp) (fun _ => rfl)⟩

/-- The sequential loop succeeds with the in-order concatenation when
every visit succeeds. -/
theorem seqVisits_all_ok (visit : Nat → Except String (List TestResult))
    (f : Nat → List TestResult) (hv : ∀ i, visit i = .ok (f i)) :
    ∀ n i, TestFramework.seqVisits visit i n
      = .ok (((List.range' i n).map f).flatten) := by
  intro n
  induction n with
  | zero => intro i; simp [TestFramework.seqVisits]
  | succ n ih =>
      intro i
      simp [TestFramework.seqVisits, hv i, ih (i + 1), List.range'_succ]

/-- The gather succeeds with the task-order concatenation when every
visit succeeds. -/
theorem gatherVisits_all_ok (visit : Nat → Except String (List TestResult))
    (f : Nat → List TestResult) (hv : ∀ i, visit i = .ok (f i)) (n : Nat) :
    TestFramework.gatherVisits visit n = .ok (((List.range n).map f).flatten) := by
  suffices h : ∀ L : List Nat,
      L.foldr
        (fun i (acc : Except String (List TestResult)) =>
          match visit i, acc with
          | Except.error e, _ => Except.error e
          | Except.ok _, Except.error e => Except.error e
          | Except.ok rs, Except.ok rest => Except.ok (rs ++ rest))
        (Except.ok [])
        = Except.ok ((L.map f).flatten) by
    unfold TestFramework.gatherVisits
    exact h (List.range n)
  intro L
  induction L with
  | nil => rfl
  | cons a as ih => simp [hv a, ih]

/-- C1 (amended): `run_tests` returns the full outcome list (the in-order
concatenation of every visit's results, possibly containing ERROR
entries) and closes the browser exactly once — after all visits, or
immediately when the URL list is empty — in sequential and parallel mode
alike, *provided* the check pool is non-empty and no warm-up navigation
and no visit's unguarded pre-check await raises.  Without that proviso
the guarantee fails (see the counterexample): `run_tests` has no
`try/finally`, so such an exception propagates to the caller and
teardown is skipped. -/
theorem run_tests_full_outcome (cfg : TestFramework.RunConfig) (pool : List String)
    (warmEnv : Nat → Option String) (venv : Nat → TestFramework.VisitEnv)
    (hpool : pool ≠ []) (hw : ∀ i, warmEnv i = none)
    (hpre : ∀ i, (venv i).pre = none) :
    (TestFramework.run_tests cfg pool warmEnv venv).outcome
      = .ok (((List.range cfg.urls.length).map
          (fun i => TestFramework.visitResults (cfg.active_site.getD "independent")
            cfg.page_type_polls pool (venv i))).flatten) ∧
    (TestFramework.run_tests cfg pool warmEnv venv).browserCloses = 1 := by
  have hpe : pool.isEmpty = false := by simpa [List.isEmpty_iff] using hpool
  have hvisit : ∀ i,
      (TestFramework.runTestsForUrl (cfg.active_site.getD "independent") (venv i)
          cfg.page_type_polls pool).map Prod.fst
        = .ok (TestFramework.visitResults (cfg.active_site.getD "independent")
            cfg.page_type_polls pool (venv i)) := by
    intro i
    simp [TestFramework.runTestsForUrl, TestFramework.visitResults, hpre i, Except.map]
  by_cases hn : cfg.urls.length = 0
  · simp [TestFramework.run_tests, hpe, hn]
  · have hwarm := warmupRun_all_none warmEnv hw
      (cfg.urls.take (TestFramework.warmupClamp cfg.warmup_pages cfg.urls.length)) 0
    have hseq := seqVisits_all_ok
      (fun i => (TestFramework.runTestsForUrl (cfg.active_site.getD "independent") (venv i)
          cfg.page_type_polls pool).map Prod.fst)
      (fun i => TestFramework.visitResults (cfg.active_site.getD "independent")
          cfg.page_type_polls pool (venv i))
      hvisit cfg.urls.length 0
    have hgat := gatherVisits_all_ok
      (fun i => (TestFramework.runTestsForUrl (cfg.active_site.getD "independent") (venv i)
          cfg.page_type_polls pool).map Prod.fst)
      (fun i => TestFramework.visitResults (cfg.active_site.getD "independent")
          cfg.page_type_polls pool (venv i))
      hvisit cfg.urls.length
    by_cases hpar : cfg.parallel_tests
    · simp [TestFramework.run_tests, hpe, hn, hpar, hwarm, hgat]
    · simp [TestFramework.run_tests, hpe, hn, hpar, hwarm, hseq, List.range_eq_range']

/-- C1 counterexample: one URL whose navigation raises — `run_tests`
lets "Navigation failed" escape to its caller and never calls
`browser_manager.close()`, refuting both halves of the claim. -/
theorem run_tests_counterexample :
    (TestFramework.run_tests cCfg ["SomeTest"] warmNone (fun _ => cBadEnv)).outcome
      = .error "Navigation failed" ∧
    (TestFramework.run_tests cCfg ["SomeTest"] warmNone (fun _ => cBadEnv)).browserCloses
      = 0 :=
  ⟨rfl, rfl⟩

/-- C1 witness: the amended theorem applied to a healthy one-URL run. -/
theorem run_tests_full_outcome_witness :
    (["SomeTest"] : List String) ≠ [] ∧ (∀ i, warmNone i = none) ∧
    (∀ i, (venvGood i).pre = none) ∧
    ((TestFramework.run_tests cCfg ["SomeTest"] warmNone venvGood).outcome
        = .ok (((List.range cCfg.urls.length).map
            (fun i => TestFramework.visitResults (cCfg.active_site.getD "independent")
              cCfg.page_type_polls ["SomeTest"] (venvGood i))).flatten) ∧
      (TestFramework.run_tests cCfg ["SomeTest"] warmNone venvGood).browserCloses = 1) :=
  ⟨by simp, fun _ => rfl, fun _ => rfl,
   run_tests_full_outcome cCfg ["SomeTest"] warmNone venvGood (by simp)
     (fun _ => rfl) (fun _ => rfl)⟩

end IDNML
